import Mathlib

/-!
Verification of the pytest-embedded logging/IO core (`pytest_embedded/log.py`,
`pytest_embedded/app.py`) against its natural-language specification.

The Python code is shallowly embedded: each method becomes a Lean function over
an explicit state / environment record; Python exceptions become explicit
outcome constructors; byte strings become `List Nat` (each element a byte
value); text becomes `List Char`.
-/

namespace PytestEmbedded

/-! ## Errno constants (Python `errno` module, Linux values) -/

def errnoEIO : Nat := 5
def errnoEBADF : Nat := 9

/-! ## `PexpectProcess.read_nonblocking`

```python
def read_nonblocking(self, size=1, timeout=-1) -> bytes:
    try:
        if os.name == 'posix':
            if timeout == -1:
                timeout = self.timeout
            rlist = [self.child_fd]
            wlist = []
            xlist = []
            if self.use_poll:
                rlist = poll_ignore_interrupts(rlist, timeout)
            else:
                rlist, wlist, xlist = select_ignore_interrupts(rlist, wlist, xlist, timeout)
            if self.child_fd not in rlist:
                raise TIMEOUT('Timeout exceeded.')
        s = os.read(self.child_fd, size)
    except OSError as err:
        if err.args[0] == errno.EIO:  # Linux-style EOF
            pass
        if err.args[0] == errno.EBADF:  # Bad file descriptor
            raise EOF('Bad File Descriptor')
        raise
    s = self._decoder.decode(s, final=False)
    self._log(s, 'read')
    return s
```

The OS-level facts a single call depends on are collected in `RnbEnv`:
whether `os.name == 'posix'`, the instance's `use_poll` flag and default
`self.timeout`, the result of the readiness wait (`poll_ignore_interrupts` /
`select_ignore_interrupts` are pexpect library externals; each is modelled as
a function from the waited timeout to "is `child_fd` in the returned ready
list"), and the outcome of the one `os.read` call (`Except errno bytes`).
-/

/-- Result of one `read_nonblocking` call. `bytes s` is a normal return
carrying the bytes handed to the incremental decoder and `_log` (decoding
and logging do not alter control flow); `timeout` is a raised pexpect
`TIMEOUT`; `eof` is a raised pexpect `EOF` (the spec's `EndOfStreamError`);
`osError e` is a propagated `OSError` with errno `e`. -/
inductive RnbOutcome where
  | bytes (s : List Nat)
  | timeout
  | eof
  | osError (e : Nat)
  deriving DecidableEq, Repr

/-- The environment of one `read_nonblocking` call. -/
structure RnbEnv where
  /-- `os.name == 'posix'` -/
  posix : Bool
  /-- `self.use_poll` -/
  usePoll : Bool
  /-- `self.timeout` (the instance's configured default) -/
  defaultTimeout : Int
  /-- `self.child_fd in poll_ignore_interrupts([self.child_fd], t)` -/
  pollReady : Int → Bool
  /-- `self.child_fd in rlist` after `select_ignore_interrupts(..., t)` -/
  selectReady : Int → Bool
  /-- outcome of `os.read(self.child_fd, size)` as a function of `size`:
  `.error e` for an `OSError` with `err.args[0] = e`, `.ok s` for bytes `s` -/
  osRead : Nat → Except Nat (List Nat)

/-- The `except OSError as err:` handler body.  The first statement,
`if err.args[0] == errno.EIO: pass`, has `pass` as its body, so both of its
branches continue to the same remaining statements (the `EBADF` check and
the bare `raise`); `afterEIOCheck` is that shared continuation. -/
def afterEIOCheck (e : Nat) : RnbOutcome :=
  if e = errnoEBADF then RnbOutcome.eof else RnbOutcome.osError e

/-- The full handler `except OSError as err: if EIO: pass; if EBADF: raise EOF(...); raise`. -/
def handleOSError (e : Nat) : RnbOutcome :=
  if e = errnoEIO then afterEIOCheck e else afterEIOCheck e

/-- The statement `s = os.read(self.child_fd, size)` together with the `except OSError`
handler; on success the bytes flow on to `_decoder.decode` / `_log` / return. -/
def readStep (env : RnbEnv) (size : Nat) : RnbOutcome :=
  match env.osRead size with
  | Except.error e => handleOSError e
  | Except.ok s => RnbOutcome.bytes s

/-- The timeout actually waited on the POSIX path: the `-1` sentinel is
replaced by `self.timeout` (`if timeout == -1: timeout = self.timeout`). -/
def resolveTimeout (env : RnbEnv) (timeout : Int) : Int :=
  if timeout = -1 then env.defaultTimeout else timeout

/-- The `if self.use_poll: ... else: ...` readiness wait, then the
`self.child_fd not in rlist` membership test. -/
def fdReady (env : RnbEnv) (t : Int) : Bool :=
  if env.usePoll then env.pollReady t else env.selectReady t

/-- Embeds `PexpectProcess.read_nonblocking(size, timeout)`. -/
def read_nonblocking (env : RnbEnv) (size : Nat) (timeout : Int) : RnbOutcome :=
  if env.posix then
    let t := resolveTimeout env timeout
    if fdReady env t then readStep env size else RnbOutcome.timeout
  else
    readStep env size

/-- The `os.read` call is actually reached (it is skipped exactly when the
POSIX readiness wait times out first). -/
def readReached (env : RnbEnv) (timeout : Int) : Prop :=
  env.posix = false ∨ fdReady env (resolveTimeout env timeout) = true

instance (env : RnbEnv) (timeout : Int) : Decidable (readReached env timeout) := by
  unfold readReached; infer_instance

/-- A call during which `os.read` raises `OSError(EIO)`: POSIX platform,
descriptor reported readable, read raises errno 5. -/
def envEIO : RnbEnv :=
  { posix := true
    usePoll := false
    defaultTimeout := 30
    pollReady := fun _ => true
    selectReady := fun _ => true
    osRead := fun _ => Except.error errnoEIO }

/-- A call during which `os.read` raises `OSError(EACCES)` (errno 13, neither
EIO nor EBADF). -/
def envEACCES : RnbEnv :=
  { posix := true
    usePoll := false
    defaultTimeout := 30
    pollReady := fun _ => true
    selectReady := fun _ => true
    osRead := fun _ => Except.error 13 }

/-- A still-open channel on POSIX with no data pending: the readiness wait
reports the descriptor not readable for every timeout. -/
def envIdle : RnbEnv :=
  { posix := true
    usePoll := false
    defaultTimeout := 30
    pollReady := fun _ => false
    selectReady := fun _ => false
    osRead := fun _ => Except.ok [] }

/-! ### Characterization lemmas for `read_nonblocking` -/

lemma handleOSError_eq (e : Nat) :
    handleOSError e = if e = errnoEBADF then RnbOutcome.eof else RnbOutcome.osError e := by
  unfold handleOSError afterEIOCheck
  split <;> rfl

lemma read_nonblocking_eq (env : RnbEnv) (size : Nat) (timeout : Int) :
    read_nonblocking env size timeout =
      if readReached env timeout then readStep env size else RnbOutcome.timeout := by
  unfold read_nonblocking readReached
  by_cases hp : env.posix = true
  · by_cases hr : fdReady env (resolveTimeout env timeout) = true <;> simp [hp, hr]
  · simp [hp, Bool.not_eq_true] at *

/-! ## `DuplicateStdout` (the Stdout Hijack Guard)

```python
def __init__(self, pexpect_proc):
    self.pexpect_proc = pexpect_proc
    self.stdout = None

def __enter__(self):
    if self.stdout is None:
        self.stdout = sys.stdout
        sys.stdout = self

def __exit__(self, exc_type, exc_val, exc_tb):
    self.close()

def __del__(self):
    self.close()

def close(self) -> None:
    if self.stdout is not None:
        sys.stdout = self.stdout
        self.stdout = None
```

The state a guard instance interacts with is its own `self.stdout` field
(`Option`, `None` initially) and the process-global `sys.stdout`.  Stdout
targets are modelled as an inductive type: the guard object itself
(`sys.stdout = self`) or any other stream object. -/

/-- A possible value of `sys.stdout`: the guard instance itself, or some
other stream object (file, terminal, ...). -/
inductive StdoutTarget where
  | guardTarget
  | external (id : Nat)
  deriving DecidableEq, Repr

/-- The state visible to one `DuplicateStdout` instance: its `self.stdout`
field and the global `sys.stdout`. -/
structure GuardState where
  /-- `self.stdout` (`None` when the guard is not redirecting) -/
  savedStdout : Option StdoutTarget
  /-- `sys.stdout` -/
  sysStdout : StdoutTarget
  deriving DecidableEq, Repr

/-- Embeds `DuplicateStdout.__enter__`. -/
def dupEnter (st : GuardState) : GuardState :=
  match st.savedStdout with
  | none => { savedStdout := some st.sysStdout, sysStdout := StdoutTarget.guardTarget }
  | some _ => st

/-- Embeds `DuplicateStdout.close` (also run by `__exit__` and `__del__`). -/
def dupClose (st : GuardState) : GuardState :=
  match st.savedStdout with
  | some t => { savedStdout := none, sysStdout := t }
  | none => st

/-- An enter/exit event on the guard, for stating the redirect-state
invariant over arbitrary interleavings. -/
inductive GuardOp where
  | enter
  | close
  deriving DecidableEq, Repr

/-- Run a sequence of enter/close events on a guard state. -/
def applyGuardOps (ops : List GuardOp) (st : GuardState) : GuardState :=
  ops.foldl (fun s op => match op with
    | GuardOp.enter => dupEnter s
    | GuardOp.close => dupClose s) st

/-- Whether the guard is actively redirecting after `ops`: the last event was an
enter with no close after it. -/
def activeAfter (ops : List GuardOp) : Bool :=
  ops.foldl (fun _ op => match op with
    | GuardOp.enter => true
    | GuardOp.close => false) false

/-! ## `DuplicateStdoutMixin` (the Forwarder mixin)

```python
def __init__(self, *args, **kwargs):
    super().__init__(*args, **kwargs)
    self._forward_io_thread = None

def create_forward_io_thread(self, pexpect_proc) -> None:
    if self._forward_io_thread:
        return
    self._forward_io_thread = threading.Thread(target=self._forward_io, args=(pexpect_proc,), daemon=True)
    self._forward_io_thread.start()

def _forward_io(self, pexpect_proc) -> None:
    raise NotImplementedError('should be implemented by subclasses')
```

A `threading.Thread` object is always truthy, so `if self._forward_io_thread:`
distinguishes exactly `None` from an existing thread reference. -/

/-- A Python exception raised by the embedded fragments. -/
inductive PyExc where
  | notImplementedError
  | valueError
  deriving DecidableEq, Repr

/-- The result of a Python call: a normal return or a raised exception. -/
inductive PyOutcome (α : Type) where
  | ok (a : α)
  | raised (e : PyExc)
  deriving DecidableEq, Repr

/-- The `threading.Thread` created by `create_forward_io_thread`:
`daemon=True`, `target=self._forward_io`, and `.start()` has been called. -/
structure ThreadHandle where
  daemon : Bool
  targetIsForwardIo : Bool
  started : Bool
  deriving DecidableEq, Repr

/-- The mixin's per-instance state: `self._forward_io_thread`
(`None` after `__init__`). -/
structure ForwarderState where
  forwardIoThread : Option ThreadHandle
  deriving DecidableEq, Repr

/-- Embeds `DuplicateStdoutMixin.create_forward_io_thread`. -/
def create_forward_io_thread (st : ForwarderState) : ForwarderState :=
  match st.forwardIoThread with
  | some _ => st
  | none =>
    { forwardIoThread := some { daemon := true, targetIsForwardIo := true, started := true } }

/-- Embeds `DuplicateStdoutMixin._forward_io` (the base-class body). -/
def mixinForwardIo : PyOutcome Unit :=
  PyOutcome.raised PyExc.notImplementedError

/-! ## UTF-8 encoding

`str.encode()` / `bytes.decode()` on the UTF-8 codec, over code points as
`Nat` and bytes as `Nat`.  Used by the send pipeline and by the Byte
Converter model. -/

/-- UTF-8 encoding of one code point. -/
def utf8EncodeChar (c : Nat) : List Nat :=
  if c < 0x80 then [c]
  else if c < 0x800 then [0xC0 + c / 64, 0x80 + c % 64]
  else if c < 0x10000 then [0xE0 + c / 4096, 0x80 + c / 64 % 64, 0x80 + c % 64]
  else [0xF0 + c / 262144, 0x80 + c / 4096 % 64, 0x80 + c / 64 % 64, 0x80 + c % 64]

/-- UTF-8 encoding of a sequence of code points. -/
def utf8Encode (s : List Nat) : List Nat :=
  (s.map utf8EncodeChar).flatten

/-- The bytes a Lean `List Char` text denotes (`str.encode()`). -/
def pyEncode (u : List Char) : List Nat :=
  utf8Encode (u.map Char.toNat)

/-! ## `PexpectProcess.__init__` source tag and `send`

```python
def __init__(self, pexpect_fr, pexpect_fw, count=1, total=1, **kwargs):
    self._count = count
    self._total = total
    if self._total > 1:
        self.source = f'dut-{self._count}'
    else:
        self.source = None
    ...

def send(self, s) -> int:
    s = self._coerce_send_string(s)
    self._log(s, 'send')
    # for pytest logging
    for line in to_str(s).replace('\r', '\n').split('\n'):
        if line.strip():
            if self.source:
                line = f'[{self.source}]' + line
            logging.info(line)
    # write the bytes into the pexpect process
    b = self._encoder.encode(s, final=False)
    try:
        written = self._fw.write(b)
        self._fw.flush()
    except ValueError:  # write to closed file. ...
        return 0
    return written
```

The logging loop operates on the text `to_str(s)`, modelled as `List Char`.
`str.strip()` truthiness (`if line.strip():`) is "some character is not
whitespace"; the ASCII whitespace set of Python's `str.strip` is modelled. -/

/-- Python `str.strip()` whitespace (ASCII part): space, tab, LF, CR,
vertical tab, form feed. -/
def pyIsSpace (c : Char) : Bool :=
  c = ' ' || c = '\t' || c = '\n' || c = '\r' || c = Char.ofNat 11 || c = Char.ofNat 12

/-- Truthiness of `line.strip()`: the stripped string is non-empty iff some
character of the line is not whitespace. -/
def stripTruthy (l : List Char) : Bool :=
  l.any (fun c => !(pyIsSpace c))

/-- Embeds `.replace('\r', '\n')`. -/
def crToLf (l : List Char) : List Char :=
  l.map (fun c => if c = '\r' then '\n' else c)

/-- Python `str.split('\n')` (keeps empty fields, `''.split('\n') == ['']`). -/
def pySplitLines : List Char → List (List Char)
  | [] => [[]]
  | c :: r =>
    if c = '\n' then [] :: pySplitLines r
    else
      match pySplitLines r with
      | [] => [[c]]
      | h :: t => (c :: h) :: t

/-- Severity of a record handed to the logging sink (`logging.info`). -/
inductive LogLevel where
  | info
  deriving DecidableEq, Repr

/-- One record handed to the logging sink. -/
structure LogEntry where
  level : LogLevel
  line : List Char
  deriving DecidableEq, Repr

/-- The value of `self.source` as computed by `PexpectProcess.__init__`:
`f'dut-{self._count}'` when `self._total > 1`, else `None`. -/
def mkSource (count total : Nat) : Option (List Char) :=
  if 1 < total then some (['d', 'u', 't', '-'] ++ Nat.toDigits 10 count) else none

/-- The `for line in to_str(s).replace('\r', '\n').split('\n'): ...` loop of
`send`: the records it hands to `logging.info`, in order. -/
def sendLogEntries (source : Option (List Char)) (u : List Char) : List LogEntry :=
  (pySplitLines (crToLf u)).filterMap (fun line =>
    if stripTruthy line then
      some { level := LogLevel.info
             line := match source with
               | some src => '[' :: (src ++ (']' :: line))
               | none => line }
    else none)

/-- The Source Tag itself as the spec describes it: `dut-<count>`. -/
def sourceTag (count : Nat) : List Char :=
  ['d', 'u', 't', '-'] ++ Nat.toDigits 10 count

/-- A log line carrying the Source Tag as attribution prefix
(`f'[{self.source}]' + line`). -/
def tagPrefixed (count : Nat) (l : List Char) : List Char :=
  '[' :: (sourceTag count ++ (']' :: l))

/-- The non-blank lines of the sent data, after `'\r'`-to-`'\n'`
normalization and splitting — the spec-side description of which lines are
logged. -/
def nonBlankLines (u : List Char) : List (List Char) :=
  (pySplitLines (crToLf u)).filter (fun l => stripTruthy l)

/-- Embeds `self._fw.write(b)` followed by `self._fw.flush()`: on an open file,
returns the number of bytes written; on a closed file, Python raises
`ValueError` ("I/O operation on closed file"). -/
def fwWrite (fwClosed : Bool) (b : List Nat) : PyOutcome Nat :=
  if fwClosed then PyOutcome.raised PyExc.valueError else PyOutcome.ok b.length

/-- Embeds `PexpectProcess.send`, with its two effects made explicit: the records
handed to the logging sink and the returned byte count.  The
`except ValueError: return 0` clause catches exactly the closed-file write
failure. -/
def pexpectSend (fwClosed : Bool) (source : Option (List Char)) (u : List Char) :
    PyOutcome (List LogEntry × Nat) :=
  let logs := sendLogEntries source u
  let b := pyEncode u
  match fwWrite fwClosed b with
  | PyOutcome.raised PyExc.valueError => PyOutcome.ok (logs, 0)
  | PyOutcome.raised e => PyOutcome.raised e
  | PyOutcome.ok written => PyOutcome.ok (logs, written)

/-- The open/closed state of the Channel Pair (`self._fr`, `self._fw`). -/
structure ChannelPair where
  frClosed : Bool
  fwClosed : Bool
  deriving DecidableEq, Repr

/-- Embeds `PexpectProcess.terminate`: closes both endpoints, swallowing any close
failure (`try: self._fr.close(); self._fw.close() except: pass`). -/
def pexpectTerminate (_st : ChannelPair) : ChannelPair :=
  { frClosed := true, fwClosed := true }

/-! ## Strict UTF-8 decoding (`bytes.decode('utf-8')`) -/

/-- Decode one scalar value from the front of a byte list.  Strict UTF-8:
rejects truncated sequences, invalid lead or continuation bytes, overlong
encodings (lead byte below 0xC2; three-byte values below 0x800; four-byte
values below 0x10000), surrogates, and values above 0x10FFFF. -/
def utf8DecodeOne : List Nat → Option (Nat × List Nat)
  | [] => none
  | b0 :: r =>
    if b0 < 0x80 then some (b0, r)
    else if b0 < 0xC2 then none
    else if b0 < 0xE0 then
      match r with
      | b1 :: r1 =>
        if 0x80 ≤ b1 ∧ b1 < 0xC0 then
          some ((b0 - 0xC0) * 64 + (b1 - 0x80), r1)
        else none
      | [] => none
    else if b0 < 0xF0 then
      match r with
      | b1 :: b2 :: r2 =>
        if 0x80 ≤ b1 ∧ b1 < 0xC0 ∧ 0x80 ≤ b2 ∧ b2 < 0xC0 ∧
            0x800 ≤ (b0 - 0xE0) * 4096 + (b1 - 0x80) * 64 + (b2 - 0x80) ∧
            ¬(0xD800 ≤ (b0 - 0xE0) * 4096 + (b1 - 0x80) * 64 + (b2 - 0x80) ∧
              (b0 - 0xE0) * 4096 + (b1 - 0x80) * 64 + (b2 - 0x80) < 0xE000) then
          some ((b0 - 0xE0) * 4096 + (b1 - 0x80) * 64 + (b2 - 0x80), r2)
        else none
      | _ => none
    else if b0 < 0xF5 then
      match r with
      | b1 :: b2 :: b3 :: r3 =>
        if 0x80 ≤ b1 ∧ b1 < 0xC0 ∧ 0x80 ≤ b2 ∧ b2 < 0xC0 ∧ 0x80 ≤ b3 ∧ b3 < 0xC0 ∧
            0x10000 ≤ (b0 - 0xF0) * 262144 + (b1 - 0x80) * 4096 + (b2 - 0x80) * 64 + (b3 - 0x80) ∧
            (b0 - 0xF0) * 262144 + (b1 - 0x80) * 4096 + (b2 - 0x80) * 64 + (b3 - 0x80) < 0x110000 then
          some ((b0 - 0xF0) * 262144 + (b1 - 0x80) * 4096 + (b2 - 0x80) * 64 + (b3 - 0x80), r3)
        else none
      | _ => none
    else none

/-- Fuelled left-to-right decoding loop (each step consumes at least one
byte, so `fuel = length` always suffices). -/
def utf8DecodeAux : Nat → List Nat → Option (List Nat)
  | _, [] => some []
  | 0, _ :: _ => none
  | fuel + 1, b0 :: r =>
    match utf8DecodeOne (b0 :: r) with
    | none => none
    | some (cp, rest) => (utf8DecodeAux fuel rest).map (fun s => cp :: s)

/-- Strict UTF-8 decoding of a whole byte list to code points; `none` on
malformed input. -/
def utf8Decode (b : List Nat) : Option (List Nat) :=
  utf8DecodeAux b.length b

/-! ## Byte Converter (`utils.to_bytes` / `utils.to_str`)

The module `pytest_embedded/utils.py` that `log.py` imports these from is
not among the sources; both are modelled from the spec's §4.1 contract. -/

/-- A Python `AnyStr` value: textual (`str`, as a list of code points) or
binary (`bytes`). -/
inductive PyAnyStr where
  | text (s : List Nat)
  | binary (b : List Nat)
  deriving DecidableEq, Repr

/-- Modelled from the spec: the decode failure of the Byte Converter
("malformed byte sequence where text was expected; surfaced to caller"). -/
inductive DecodingError where
  | malformed
  deriving DecidableEq, Repr

/-- The UTF-8 bytes of a terminator argument ("raw bytes or absent"; a
textual terminator is encoded the same way as a textual value). -/
def terminatorBytes (t : PyAnyStr) : List Nat :=
  match t with
  | PyAnyStr.text ts => utf8Encode ts
  | PyAnyStr.binary tb => tb

/-- Modelled from the spec: `utils.to_bytes` is absent from the sources;
§4.1 reads "if value is textual, encode using UTF-8 and append the given
terminator (raw bytes or absent = no terminator) when one is supplied; if
value is already binary, pass through with the terminator appended
identically". -/
def to_bytes (v : PyAnyStr) (terminator : Option PyAnyStr) : List Nat :=
  let base := match v with
    | PyAnyStr.text s => utf8Encode s
    | PyAnyStr.binary b => b
  match terminator with
  | none => base
  | some t => base ++ terminatorBytes t

/-- Modelled from the spec: `utils.to_str` is absent from the sources; §4.1
reads "decode binary input as UTF-8 ...; pass through text input unchanged",
with decode failures on malformed input failing with a `DecodingError`. -/
def to_str (v : PyAnyStr) : Except DecodingError (List Nat) :=
  match v with
  | PyAnyStr.text s => Except.ok s
  | PyAnyStr.binary b =>
    match utf8Decode b with
    | some s => Except.ok s
    | none => Except.error DecodingError.malformed

/-! ## `DuplicateStdoutPopen.send`

```python
def send(self, s) -> None:
    self.stdin.write(to_bytes(s, '\n'))
```
-/

/-- The bytes `DuplicateStdoutPopen.send` writes to the child's stdin: the
terminator argument is the one-character text `'\n'` (code point 10). -/
def popenSend (s : PyAnyStr) : List Nat :=
  to_bytes s (some (PyAnyStr.text [10]))

end PytestEmbedded

namespace PytestEmbedded

/-! ## Theorems for the claims -/

/-- Claim C1 (counterexample). The claim says a call during which `os.read`
raises `OSError(EIO)` does not raise and returns the empty result.  On the
code, the `if err.args[0] == errno.EIO: pass` branch is inert: `pass` does
nothing and control falls through to the bare `raise`, so the call re-raises
the `OSError` instead of returning empty output. -/
theorem c1_counterexample :
    read_nonblocking envEIO 1 (-1) = RnbOutcome.osError errnoEIO ∧
    RnbOutcome.osError errnoEIO ≠ RnbOutcome.bytes [] := by
  constructor
  · rfl
  · decide

/-- Claim C1 (amended). Whenever the `os.read` call is reached and raises
`OSError(EIO)`, `read_nonblocking` propagates that `OSError` unchanged
(it neither returns an empty result nor raises `EOF`): the EIO branch of the
handler is a no-op and the handler ends in a bare `raise`. -/
theorem c1_eio_propagates (env : RnbEnv) (size : Nat) (timeout : Int)
    (h : readReached env timeout) (he : env.osRead size = Except.error errnoEIO) :
    read_nonblocking env size timeout = RnbOutcome.osError errnoEIO := by
  rw [read_nonblocking_eq, if_pos h]
  unfold readStep
  rw [he]
  decide

/-- Claim C1 witness: the amended theorem applied to a concrete environment. -/
theorem c1_witness : read_nonblocking envEIO 1 0 = RnbOutcome.osError errnoEIO :=
  c1_eio_propagates envEIO 1 0 (Or.inr rfl) rfl

/-- Claim C2. `read_nonblocking` raises `EOF` iff the underlying `os.read` is
actually reached and raises `OSError(EBADF)`; on POSIX a still-open channel
whose descriptor does not become readable within the (resolved) timeout
raises `TIMEOUT`, never `EOF`; and every `OSError` with an errno other than
EIO and EBADF propagates unchanged. -/
theorem c2_eof_iff_ebadf (env : RnbEnv) (size : Nat) (timeout : Int) :
    (read_nonblocking env size timeout = RnbOutcome.eof ↔
      readReached env timeout ∧ env.osRead size = Except.error errnoEBADF) ∧
    (env.posix = true → fdReady env (resolveTimeout env timeout) = false →
      read_nonblocking env size timeout = RnbOutcome.timeout) ∧
    (∀ e, readReached env timeout → env.osRead size = Except.error e →
      e ≠ errnoEIO → e ≠ errnoEBADF →
      read_nonblocking env size timeout = RnbOutcome.osError e) := by
  refine ⟨?_, ?_, ?_⟩
  · rw [read_nonblocking_eq]
    by_cases h : readReached env timeout
    · rw [if_pos h]
      unfold readStep
      cases hread : env.osRead size with
      | error e =>
        simp only [handleOSError_eq]
        by_cases h9 : e = errnoEBADF
        · simp [h9, h]
        · simp [h9, h]
      | ok s => simp [h, hread]
    · rw [if_neg h]
      simp [h]
  · intro hp hr
    rw [read_nonblocking_eq, if_neg]
    intro hre
    rcases hre with hnp | hfd
    · rw [hp] at hnp; simp at hnp
    · rw [hr] at hfd; simp at hfd
  · intro e h hread h5 h9
    rw [read_nonblocking_eq, if_pos h]
    unfold readStep
    rw [hread]
    simp only [handleOSError_eq]
    rw [if_neg h9]

/-- Claim C2 witness: an `OSError(EACCES)` (errno 13) propagates unchanged. -/
theorem c2_witness : read_nonblocking envEACCES 1 2 = RnbOutcome.osError 13 :=
  (c2_eof_iff_ebadf envEACCES 1 2).2.2 13 (Or.inr rfl) rfl (by decide) (by decide)

/-- Claim C4. On POSIX, the `-1` sentinel timeout behaves exactly as the
instance's configured default timeout, and whenever the readiness wait
reports the descriptor not readable within the resolved timeout the call
raises `TIMEOUT` (in particular for `timeout = 0` with no pending data). -/
theorem c4_timeout_contract (env : RnbEnv) (size : Nat) (timeout : Int)
    (hp : env.posix = true) :
    read_nonblocking env size (-1) = read_nonblocking env size env.defaultTimeout ∧
    (fdReady env (resolveTimeout env timeout) = false →
      read_nonblocking env size timeout = RnbOutcome.timeout) := by
  constructor
  · unfold read_nonblocking resolveTimeout
    simp [hp]
  · intro hr
    unfold read_nonblocking
    simp [hp, hr]

/-- Claim C4 witness: `timeout = 0` on an idle still-open channel raises
`TIMEOUT`. -/
theorem c4_witness : read_nonblocking envIdle 1 0 = RnbOutcome.timeout :=
  (c4_timeout_contract envIdle 1 0 rfl).2 rfl

/-! ### Guard-state lemmas -/

lemma dupEnter_isSome (st : GuardState) : (dupEnter st).savedStdout.isSome = true := by
  cases h : st.savedStdout <;> simp [dupEnter, h]

lemma dupClose_isSome (st : GuardState) : (dupClose st).savedStdout.isSome = false := by
  cases h : st.savedStdout <;> simp [dupClose, h]

lemma applyGuardOps_isSome (ops : List GuardOp) (st : GuardState) :
    (applyGuardOps ops st).savedStdout.isSome =
      ops.foldl (fun _ op => match op with
        | GuardOp.enter => true
        | GuardOp.close => false) st.savedStdout.isSome := by
  induction ops generalizing st with
  | nil => rfl
  | cons op ops ih =>
    cases op with
    | enter =>
      show (applyGuardOps ops (dupEnter st)).savedStdout.isSome = _
      rw [ih, dupEnter_isSome]
      rfl
    | close =>
      show (applyGuardOps ops (dupClose st)).savedStdout.isSome = _
      rw [ih, dupClose_isSome]
      rfl

/-- Claim C5. Entering the guard twice without exiting remembers exactly the
stdout target current at the first entry (the second entry is a no-op);
closing restores the remembered target and clears the field; a second close
is a no-op; and over any sequence of enter/close events starting from a
fresh guard, the `self.stdout` field is non-`None` exactly while the guard
is actively redirecting. -/
theorem c5_guard_redirect_state :
    (∀ st : GuardState, st.savedStdout = none →
      (dupEnter st).savedStdout = some st.sysStdout ∧
      (dupEnter st).sysStdout = StdoutTarget.guardTarget ∧
      dupEnter (dupEnter st) = dupEnter st ∧
      dupClose (dupEnter st) = { savedStdout := none, sysStdout := st.sysStdout } ∧
      dupClose (dupClose (dupEnter st)) = dupClose (dupEnter st)) ∧
    (∀ ops : List GuardOp, ∀ start : StdoutTarget,
      (applyGuardOps ops { savedStdout := none, sysStdout := start }).savedStdout.isSome
        = activeAfter ops) := by
  constructor
  · intro st h
    refine ⟨?_, ?_, ?_, ?_, ?_⟩ <;> simp [dupEnter, dupClose, h]
  · intro ops start
    rw [applyGuardOps_isSome]
    rfl

/-- Claim C5 witness: a second entry on a concrete fresh guard is a no-op. -/
theorem c5_witness :
    dupEnter (dupEnter { savedStdout := none, sysStdout := StdoutTarget.external 0 }) =
      dupEnter { savedStdout := none, sysStdout := StdoutTarget.external 0 } :=
  (c5_guard_redirect_state.1 { savedStdout := none, sysStdout := StdoutTarget.external 0 }
    rfl).2.2.1

/-- Claim C6. `create_forward_io_thread` on a fresh instance installs exactly
one started daemon thread running `self._forward_io`; when a thread
reference already exists the call is a no-op, so the operation is
idempotent; and the mixin's own `_forward_io` raises `NotImplementedError`. -/
theorem c6_forwarder_idempotent :
    (create_forward_io_thread { forwardIoThread := none } =
      { forwardIoThread := some { daemon := true, targetIsForwardIo := true, started := true } }) ∧
    (∀ (st : ForwarderState) (h : ThreadHandle), st.forwardIoThread = some h →
      create_forward_io_thread st = st) ∧
    (∀ st : ForwarderState,
      create_forward_io_thread (create_forward_io_thread st) = create_forward_io_thread st) ∧
    mixinForwardIo = PyOutcome.raised PyExc.notImplementedError := by
  refine ⟨rfl, ?_, ?_, rfl⟩
  · intro st h hh
    simp [create_forward_io_thread, hh]
  · intro st
    cases hst : st.forwardIoThread <;> simp [create_forward_io_thread, hst]

/-! ### Send-pipeline lemmas -/

lemma filterMap_if {α β : Type} (p : α → Bool) (f : α → β) (L : List α) :
    L.filterMap (fun a => if p a then some (f a) else none) = (L.filter p).map f := by
  induction L with
  | nil => rfl
  | cons a L ih => by_cases h : p a <;> simp [h, ih]

lemma pySplitLines_ne_nil (u : List Char) : pySplitLines u ≠ [] := by
  cases u with
  | nil => simp [pySplitLines]
  | cons c r =>
    unfold pySplitLines
    by_cases h : c = '\n'
    · rw [if_pos h]; simp
    · rw [if_neg h]
      cases pySplitLines r <;> simp

lemma mem_pySplitLines (u : List Char) (c : Char) (hc : c ∈ u) (hn : c ≠ '\n') :
    ∃ l ∈ pySplitLines u, c ∈ l := by
  induction u with
  | nil => cases hc
  | cons a r ih =>
    unfold pySplitLines
    by_cases ha : a = '\n'
    · rw [if_pos ha]
      rcases List.mem_cons.mp hc with rfl | hcr
      · exact absurd ha hn
      · rcases ih hcr with ⟨l, hl, hcl⟩
        exact ⟨l, List.mem_cons_of_mem _ hl, hcl⟩
    · rw [if_neg ha]
      rcases List.mem_cons.mp hc with rfl | hcr
      · cases hsp : pySplitLines r with
        | nil => exact ⟨[c], by simp, by simp⟩
        | cons h t => exact ⟨c :: h, by simp, by simp⟩
      · rcases ih hcr with ⟨l, hl, hcl⟩
        cases hsp : pySplitLines r with
        | nil => rw [hsp] at hl; cases hl
        | cons h t =>
          rw [hsp] at hl
          rcases List.mem_cons.mp hl with rfl | hlt
          · exact ⟨a :: l, by simp, List.mem_cons_of_mem _ hcl⟩
          · exact ⟨l, List.mem_cons_of_mem _ hlt, hcl⟩

lemma sendLogEntries_eq (source : Option (List Char)) (u : List Char) :
    sendLogEntries source u = (nonBlankLines u).map (fun line =>
      { level := LogLevel.info
        line := match source with
          | some src => '[' :: (src ++ (']' :: line))
          | none => line }) := by
  unfold sendLogEntries nonBlankLines
  exact filterMap_if (fun line => stripTruthy line)
    (fun line => ({ level := LogLevel.info
                    line := match source with
                      | some src => '[' :: (src ++ (']' :: line))
                      | none => line } : LogEntry)) _

lemma nonBlankLines_ne_nil (u : List Char) (c : Char) (hc : c ∈ u)
    (hs : pyIsSpace c = false) : nonBlankLines u ≠ [] := by
  have hcr : c ≠ '\r' := by
    intro h; rw [h] at hs; simp [pyIsSpace] at hs
  have hcn : c ≠ '\n' := by
    intro h; rw [h] at hs; simp [pyIsSpace] at hs
  have hmem : c ∈ crToLf u := by
    unfold crToLf
    exact List.mem_map.mpr ⟨c, hc, by simp [hcr]⟩
  rcases mem_pySplitLines (crToLf u) c hmem hcn with ⟨l, hl, hcl⟩
  unfold nonBlankLines
  intro hnil
  have := List.filter_eq_nil_iff.mp hnil l hl
  exact this (List.any_eq_true.mpr ⟨c, hcl, by simp [hs]⟩)

/-- Claim C8. The records `send` hands to the logging sink are exactly the
non-blank lines of the sent text (after CR normalization and newline
splitting), each at info severity, and each carrying the
`[dut-<count>]` Source-Tag prefix precisely when the stream was constructed
with `total > 1`; with `total = 1` the line is logged unprefixed. -/
theorem c8_send_logging (u : List Char) (count total : Nat) :
    sendLogEntries (mkSource count total) u =
      (nonBlankLines u).map (fun l =>
        { level := LogLevel.info
          line := if 1 < total then tagPrefixed count l else l }) := by
  unfold sendLogEntries nonBlankLines mkSource tagPrefixed sourceTag
  by_cases ht : 1 < total <;> simp [ht, filterMap_if]

/-- Claim C3. `send` on a stream whose write end is closed — in particular any
stream on which `terminate()` has run — returns 0 and does not raise: the
`ValueError` from writing to the closed file is caught. -/
theorem c3_send_after_terminate (st : ChannelPair) (source : Option (List Char))
    (u : List Char) :
    ∃ logs, pexpectSend (pexpectTerminate st).fwClosed source u = PyOutcome.ok (logs, 0) :=
  ⟨sendLogEntries source u, rfl⟩

/-- Claim C10. `send` is not atomic on the closed-write path: with the write
end closed it returns 0 without raising, yet hands the logging sink exactly
the same records as a successful send of the same data — the logging side
effect precedes the write attempt — and those records are non-empty whenever
the data has a non-whitespace character. -/
theorem c10_logs_before_write (source : Option (List Char)) (u : List Char) :
    pexpectSend true source u = PyOutcome.ok (sendLogEntries source u, 0) ∧
    pexpectSend false source u =
      PyOutcome.ok (sendLogEntries source u, (pyEncode u).length) ∧
    ((∃ c ∈ u, pyIsSpace c = false) → sendLogEntries source u ≠ []) := by
  refine ⟨rfl, rfl, ?_⟩
  rintro ⟨c, hc, hs⟩
  rw [sendLogEntries_eq]
  intro hnil
  exact nonBlankLines_ne_nil u c hc hs (List.map_eq_nil_iff.mp hnil)

/-- Claim C10 witness: a concrete non-blank send on a closed stream returns 0
while still logging. -/
theorem c10_witness : sendLogEntries none ['h', 'i'] ≠ [] :=
  (c10_logs_before_write none ['h', 'i']).2.2 ⟨'h', by decide, by decide⟩

/-- Claim C6 witness: a second start on a concrete instance that already holds
a thread reference is a no-op. -/
theorem c6_witness :
    create_forward_io_thread
        { forwardIoThread := some { daemon := true, targetIsForwardIo := true, started := true } } =
      { forwardIoThread := some { daemon := true, targetIsForwardIo := true, started := true } } :=
  c6_forwarder_idempotent.2.1 _ _ rfl

/-! ### UTF-8 round-trip lemmas -/

lemma utf8Encode_nil : utf8Encode [] = [] := rfl

lemma utf8Encode_cons (cp : Nat) (s : List Nat) :
    utf8Encode (cp :: s) = utf8EncodeChar cp ++ utf8Encode s := rfl

lemma utf8DecodeOne_inv (l : List Nat) (cp : Nat) (rest : List Nat)
    (h : utf8DecodeOne l = some (cp, rest)) :
    utf8EncodeChar cp ++ rest = l := by
  cases l with
  | nil => exact absurd h (by simp [utf8DecodeOne])
  | cons b0 r =>
    simp only [utf8DecodeOne] at h
    by_cases h0 : b0 < 0x80
    · rw [if_pos h0] at h
      obtain ⟨rfl, rfl⟩ : b0 = cp ∧ r = rest := by simpa using h
      unfold utf8EncodeChar
      rw [if_pos h0]
      rfl
    · rw [if_neg h0] at h
      by_cases h1 : b0 < 0xC2
      · rw [if_pos h1] at h; cases h
      · rw [if_neg h1] at h
        by_cases h2 : b0 < 0xE0
        · rw [if_pos h2] at h
          cases r with
          | nil => simp at h
          | cons b1 r1 =>
            by_cases hc : 0x80 ≤ b1 ∧ b1 < 0xC0
            · obtain ⟨hcp, hrest⟩ : (b0 - 0xC0) * 64 + (b1 - 0x80) = cp ∧ r1 = rest := by
                simpa [hc] using h
              subst hrest
              subst hcp
              obtain ⟨hb1, hb1u⟩ := hc
              unfold utf8EncodeChar
              rw [if_neg (by omega), if_pos (by omega)]
              simp only [List.cons_append, List.nil_append, List.cons.injEq, and_true]
              omega
            · simp [hc] at h
        · rw [if_neg h2] at h
          by_cases h3 : b0 < 0xF0
          · rw [if_pos h3] at h
            cases r with
            | nil => simp at h
            | cons b1 r' =>
              cases r' with
              | nil => simp at h
              | cons b2 r2 =>
                by_cases hc : 0x80 ≤ b1 ∧ b1 < 0xC0 ∧ 0x80 ≤ b2 ∧ b2 < 0xC0 ∧
                    0x800 ≤ (b0 - 0xE0) * 4096 + (b1 - 0x80) * 64 + (b2 - 0x80) ∧
                    ¬(0xD800 ≤ (b0 - 0xE0) * 4096 + (b1 - 0x80) * 64 + (b2 - 0x80) ∧
                      (b0 - 0xE0) * 4096 + (b1 - 0x80) * 64 + (b2 - 0x80) < 0xE000)
                · obtain ⟨hcp, hrest⟩ :
                      (b0 - 0xE0) * 4096 + (b1 - 0x80) * 64 + (b2 - 0x80) = cp ∧ r2 = rest := by
                    simpa [hc] using h
                  subst hrest
                  subst hcp
                  obtain ⟨hb1, hb1u, hb2, hb2u, hlo, -⟩ := hc
                  unfold utf8EncodeChar
                  rw [if_neg (by omega), if_neg (by omega), if_pos (by omega)]
                  simp only [List.cons_append, List.nil_append, List.cons.injEq, and_true]
                  omega
                · simp at h
                  exact absurd h.1 (by omega)
          · rw [if_neg h3] at h
            by_cases h4 : b0 < 0xF5
            · rw [if_pos h4] at h
              cases r with
              | nil => simp at h
              | cons b1 r' =>
                cases r' with
                | nil => simp at h
                | cons b2 r'' =>
                  cases r'' with
                  | nil => simp at h
                  | cons b3 r3 =>
                    by_cases hc : 0x80 ≤ b1 ∧ b1 < 0xC0 ∧ 0x80 ≤ b2 ∧ b2 < 0xC0 ∧
                        0x80 ≤ b3 ∧ b3 < 0xC0 ∧
                        0x10000 ≤ (b0 - 0xF0) * 262144 + (b1 - 0x80) * 4096 +
                          (b2 - 0x80) * 64 + (b3 - 0x80) ∧
                        (b0 - 0xF0) * 262144 + (b1 - 0x80) * 4096 +
                          (b2 - 0x80) * 64 + (b3 - 0x80) < 0x110000
                    · obtain ⟨hcp, hrest⟩ :
                          (b0 - 0xF0) * 262144 + (b1 - 0x80) * 4096 +
                            (b2 - 0x80) * 64 + (b3 - 0x80) = cp ∧ r3 = rest := by
                        simpa [hc] using h
                      subst hrest
                      subst hcp
                      obtain ⟨hb1, hb1u, hb2, hb2u, hb3, hb3u, hlo, hhi⟩ := hc
                      unfold utf8EncodeChar
                      rw [if_neg (by omega), if_neg (by omega), if_neg (by omega)]
                      simp only [List.cons_append, List.nil_append, List.cons.injEq, and_true]
                      omega
                    · simp [hc] at h
            · rw [if_neg h4] at h; cases h

lemma utf8DecodeAux_inv (fuel : Nat) :
    ∀ (b s : List Nat), utf8DecodeAux fuel b = some s → utf8Encode s = b := by
  induction fuel with
  | zero =>
    intro b s h
    cases b with
    | nil =>
      obtain rfl : ([] : List Nat) = s := by simpa [utf8DecodeAux] using h
      rfl
    | cons b0 r => exact absurd h (by simp [utf8DecodeAux])
  | succ fuel ih =>
    intro b s h
    cases b with
    | nil =>
      obtain rfl : ([] : List Nat) = s := by simpa [utf8DecodeAux] using h
      rfl
    | cons b0 r =>
      unfold utf8DecodeAux at h
      cases hd : utf8DecodeOne (b0 :: r) with
      | none => rw [hd] at h; cases h
      | some pr =>
        obtain ⟨cp, rest⟩ := pr
        simp only [hd] at h
        cases hr : utf8DecodeAux fuel rest with
        | none => rw [hr] at h; cases h
        | some s' =>
          rw [hr] at h
          obtain rfl : cp :: s' = s := by simpa using h
          rw [utf8Encode_cons, ih rest s' hr]
          exact utf8DecodeOne_inv _ _ _ hd

/-- Claim C9. The Byte Converter round-trip law: decoding a valid-UTF-8 byte
sequence with `to_str` and re-encoding with `to_bytes` restores the original
bytes; and for every text input and terminator, `to_bytes` yields bytes
ending exactly in the terminator's encoding. -/
theorem c9_byte_converter_roundtrip :
    (∀ (B s : List Nat), to_str (PyAnyStr.binary B) = Except.ok s →
      to_bytes (PyAnyStr.text s) none = B) ∧
    (∀ (s : List Nat) (T : PyAnyStr),
      terminatorBytes T <:+ to_bytes (PyAnyStr.text s) (some T)) := by
  constructor
  · intro B s h
    simp only [to_str] at h
    cases hd : utf8Decode B with
    | none => rw [hd] at h; cases h
    | some s' =>
      rw [hd] at h
      obtain rfl : s' = s := by simpa using h
      exact utf8DecodeAux_inv B.length B s' hd
  · intro s T
    exact ⟨utf8Encode s, rfl⟩

/-- Claim C9 witness: the round trip evaluated on the two-byte sequence for
U+00E9, and the terminator law on a concrete text and terminator. -/
theorem c9_witness :
    to_bytes (PyAnyStr.text [233]) none = [195, 169] ∧
    terminatorBytes (PyAnyStr.text [10]) <:+
      to_bytes (PyAnyStr.text [104]) (some (PyAnyStr.text [10])) :=
  ⟨c9_byte_converter_roundtrip.1 [195, 169] [233] rfl,
   c9_byte_converter_roundtrip.2 [104] (PyAnyStr.text [10])⟩

/-- Claim C7 (counterexample). The claim says binary input to the Subprocess
Adapter's `send` is passed through with no terminator added; on the
spec-modelled `to_bytes` (whose contract appends the supplied terminator to
binary input identically), `send(b'h')` writes `b'h\n'`, not `b'h'`. -/
theorem c7_counterexample :
    popenSend (PyAnyStr.binary [104]) = [104, 10] ∧
    ([104, 10] : List Nat) ≠ [104] := by
  constructor
  · rfl
  · decide

/-- Claim C7 (amended). `DuplicateStdoutPopen.send` coerces text to UTF-8
bytes and appends the newline terminator; binary input is passed through
with the same newline terminator appended as well. -/
theorem c7_send_appends_newline :
    (∀ ts : List Nat, popenSend (PyAnyStr.text ts) = utf8Encode ts ++ [10]) ∧
    (∀ b : List Nat, popenSend (PyAnyStr.binary b) = b ++ [10]) := by
  constructor
  · intro ts
    show utf8Encode ts ++ terminatorBytes (PyAnyStr.text [10]) = utf8Encode ts ++ [10]
    rfl
  · intro b
    rfl

end PytestEmbedded
